import Mathlib

/-!
Shallow embedding of the instruction-execution core of the gabalah Game Boy
emulator (src/src/cpu/ops.rs, src/src/cpu/alu.rs, src/src/memory/ram.rs,
src/src/cpu/cpu.rs), together with theorems settling the frozen claims.

Machine integers are modelled as `Nat` with explicit `% 256` / `% 65536`
where the Rust code wraps or casts; Rust panics (`panic!`, `expect`,
`unwrap`, `todo!`, out-of-range indexing, violated `debug_assert!`) are
modelled as `Option.none`.
-/

namespace GB

/-- Flag bit masks, from src/src/cpu/ops.rs lines 8-11. -/
def ZERO_FLAG_BITMASK : Nat := 1 <<< 7

def SUBTRACTION_FLAG_BITMASK : Nat := 1 <<< 6

def HALF_CARRY_FLAG_BITMASK : Nat := 1 <<< 5

def CARRY_FLAG_BITMASK : Nat := 1 <<< 4

/-- A binary value that is either 8 or 16 bits (enum `Bytes`, src/src/memory/ram.rs). -/
inductive Bytes where
  | One (v : Nat)
  | Two (v : Nat)
deriving DecidableEq, Repr

/-- `Bytes::from_bytes(lo, hi)`: `(hi as u16) << 8 | lo as u16` (ram.rs lines 38-40). -/
def Bytes.from_bytes (lo hi : Nat) : Bytes :=
  Bytes.Two ((hi % 256) * 256 + lo % 256)

/-- `Bytes::single`: the payload of a one-byte value, `None` otherwise (ram.rs lines 42-47). -/
def Bytes.single : Bytes → Option Nat
  | .One v => some v
  | .Two _ => none

/-- `Bytes::word`: the payload of a two-byte value, `None` otherwise (ram.rs lines 49-54). -/
def Bytes.word : Bytes → Option Nat
  | .Two v => some v
  | .One _ => none

/-- `Bytes::lo`: low byte of a two-byte value; panics (`none`) on a one-byte value (ram.rs lines 70-75). -/
def Bytes.lo : Bytes → Option Nat
  | .Two v => some (v % 256)
  | .One _ => none

/-- `Bytes::hi`: high byte of a two-byte value; panics (`none`) on a one-byte value (ram.rs lines 77-82). -/
def Bytes.hi : Bytes → Option Nat
  | .Two v => some (v / 256 % 256)
  | .One _ => none

/-- `impl From<bool> for Bytes` (ram.rs lines 27-35). -/
def Bytes.ofBool (value : Bool) : Bytes :=
  if value then Bytes.One 1 else Bytes.One 0

/-- The CPU register file (struct `Registers`, src/src/memory/ram.rs lines 86-108). -/
structure Registers where
  a : Nat
  b : Nat
  d : Nat
  h : Nat
  f : Nat
  c : Nat
  e : Nat
  l : Nat
  sp : Nat
  pc : Nat
deriving DecidableEq, Repr

/-- `Registers::new`: every register 0 except `pc = 0x100` (ram.rs lines 112-117). -/
def Registers.new : Registers :=
  { a := 0, b := 0, d := 0, h := 0, f := 0, c := 0, e := 0, l := 0, sp := 0, pc := 0x100 }

/-- `Registers::af` (ram.rs lines 120-122). -/
def Registers.af (r : Registers) : Bytes := Bytes.from_bytes r.f r.a

/-- `Registers::bc` (ram.rs lines 125-127). -/
def Registers.bc (r : Registers) : Bytes := Bytes.from_bytes r.c r.b

/-- `Registers::hl` (ram.rs lines 130-132). -/
def Registers.hl (r : Registers) : Bytes := Bytes.from_bytes r.l r.h

/-- `Registers::de` (ram.rs lines 135-137). -/
def Registers.de (r : Registers) : Bytes := Bytes.from_bytes r.e r.d

/-- `Registers::set_bc`: `c = bytes.lo(); b = bytes.hi()`; panics (`none`) on a one-byte value (ram.rs lines 140-143). -/
def Registers.set_bc (r : Registers) (bytes : Bytes) : Option Registers := do
  let lo ← bytes.lo
  let hi ← bytes.hi
  some { r with c := lo, b := hi }

/-- `Registers::set_hl` (ram.rs lines 146-149). -/
def Registers.set_hl (r : Registers) (bytes : Bytes) : Option Registers := do
  let lo ← bytes.lo
  let hi ← bytes.hi
  some { r with l := lo, h := hi }

/-- `RAM_SIZE` (ram.rs line 153). -/
def RAM_SIZE : Nat := 64 * 1024

/-- The Game Boy RAM (struct `Ram`, ram.rs lines 193-196), modelled as a map from address to byte. -/
def Ram : Type := Nat → Nat

/-- `Ram::new`: zeroed memory (ram.rs lines 200-202). -/
def Ram.new : Ram := fun _ => 0

/-- `Ram::set` (ram.rs lines 205-207). -/
def Ram.set (m : Ram) (address value : Nat) : Ram :=
  fun x => if x == address then value else m x

/-- `Ram::get` (ram.rs lines 218-220). -/
def Ram.get (m : Ram) (address : Nat) : Nat := m address

/-- `Ram::set_word` (ram.rs lines 210-215): asserts a two-byte value, writes its low byte
at `address` and its high byte at `address + 1`; a one-byte value makes `lo()`/`hi()` panic
(`none`), and `address + 1` must stay inside RAM. -/
def Ram.set_word (m : Ram) (address : Nat) (values : Bytes) : Option Ram := do
  let lo ← values.lo
  let hi ← values.hi
  if address < 65535 then
    some ((m.set address lo).set (address + 1) hi)
  else
    none

/-- `Addr::next` (ram.rs lines 171-177). -/
def Addr.next (a : Nat) : Option Nat :=
  if a < 65535 then some (a + 1) else none

/-- `impl From<Bytes> for Addr` (ram.rs lines 186-190): `(hi << 8) | lo`; panics (`none`)
on a one-byte value. -/
def Addr.ofBytes (bytes : Bytes) : Option Nat := do
  let hi ← bytes.hi
  let lo ← bytes.lo
  some (hi * 256 + lo)

/-- `Flags::zero` for `u8` (src/src/cpu/alu.rs lines 17-19). -/
def Flags.zero (f : Nat) : Bool := f &&& ZERO_FLAG_BITMASK != 0

/-- `Flags::set_zero` (alu.rs lines 21-27). -/
def Flags.set_zero (f : Nat) (value : Bool) : Nat :=
  if value then f ||| ZERO_FLAG_BITMASK else f &&& (255 - ZERO_FLAG_BITMASK)

/-- `Flags::subtraction` (alu.rs lines 29-31). -/
def Flags.subtraction (f : Nat) : Bool := f &&& SUBTRACTION_FLAG_BITMASK != 0

/-- `Flags::set_subtraction` (alu.rs lines 33-39). -/
def Flags.set_subtraction (f : Nat) (value : Bool) : Nat :=
  if value then f ||| SUBTRACTION_FLAG_BITMASK else f &&& (255 - SUBTRACTION_FLAG_BITMASK)

/-- `Flags::half_carry` (alu.rs lines 41-43). -/
def Flags.half_carry (f : Nat) : Bool := f &&& HALF_CARRY_FLAG_BITMASK != 0

/-- `Flags::set_half_carry` (alu.rs lines 45-51). -/
def Flags.set_half_carry (f : Nat) (value : Bool) : Nat :=
  if value then f ||| HALF_CARRY_FLAG_BITMASK else f &&& (255 - HALF_CARRY_FLAG_BITMASK)

/-- `Flags::carry` (alu.rs lines 53-55). -/
def Flags.carry (f : Nat) : Bool := f &&& CARRY_FLAG_BITMASK != 0

/-- `Flags::set_carry` (alu.rs lines 57-63). -/
def Flags.set_carry (f : Nat) (value : Bool) : Nat :=
  if value then f ||| CARRY_FLAG_BITMASK else f &&& (255 - CARRY_FLAG_BITMASK)

/-- `alu::inc` (alu.rs lines 66-80): 8-bit sets Z, N, H and leaves carry alone; 16-bit
touches no flags. -/
def Alu.inc (value : Bytes) (flags : Nat) : Bytes × Nat :=
  match value with
  | .One v =>
      let result := (v + 1) % 256
      let f1 := Flags.set_zero flags (result == 0)
      let f2 := Flags.set_subtraction f1 false
      let f3 := Flags.set_half_carry f2 (decide ((v &&& 0x0F) + 1 > 0x0F))
      (.One result, f3)
  | .Two v => (.Two ((v + 1) % 65536), flags)

/-- `alu::dec` (alu.rs lines 82-96). -/
def Alu.dec (value : Bytes) (flags : Nat) : Bytes × Nat :=
  match value with
  | .One v =>
      let result := (v + 255) % 256
      let f1 := Flags.set_zero flags (result == 0)
      let f2 := Flags.set_subtraction f1 true
      let f3 := Flags.set_half_carry f2 ((v &&& 0x0F) == 0)
      (.One result, f3)
  | .Two v => (.Two ((v + 65535) % 65536), flags)

/-- `alu::add` (alu.rs lines 98-117); mixed widths panic (`none`). -/
def Alu.add (value1 value2 : Bytes) (flags : Nat) : Option (Bytes × Nat) :=
  match value1, value2 with
  | .One a, .One b =>
      let result := (a + b) % 256
      let f1 := Flags.set_zero flags (result == 0)
      let f2 := Flags.set_subtraction f1 false
      let f3 := Flags.set_half_carry f2 (decide ((a &&& 0x0F) + (b &&& 0x0F) > 0x0F))
      let f4 := Flags.set_carry f3 (decide (a + b > 0xFF))
      some (.One result, f4)
  | .Two a, .Two b =>
      let result := (a + b) % 65536
      let f1 := Flags.set_subtraction flags false
      let f2 := Flags.set_half_carry f1 (decide ((a &&& 0x0FFF) + (b &&& 0x0FFF) > 0x0FFF))
      let f3 := Flags.set_carry f2 (decide (a + b > 0xFFFF))
      some (.Two result, f3)
  | _, _ => none

/-- `alu::adc` (alu.rs lines 119-140). -/
def Alu.adc (value1 value2 : Bytes) (flags : Nat) : Option (Bytes × Nat) :=
  match value1, value2 with
  | .One a, .One b =>
      let carry := if Flags.carry flags then 1 else 0
      let result := (a + b + carry) % 256
      let f1 := Flags.set_zero flags (result == 0)
      let f2 := Flags.set_subtraction f1 false
      let f3 := Flags.set_half_carry f2 (decide ((a &&& 0x0F) + (b &&& 0x0F) + carry > 0x0F))
      let f4 := Flags.set_carry f3 (decide (a + b + carry > 0xFF))
      some (.One result, f4)
  | .Two a, .Two b =>
      let carry := if Flags.carry flags then 1 else 0
      let result := (a + b + carry) % 65536
      let f1 := Flags.set_subtraction flags false
      let f2 := Flags.set_half_carry f1 (decide ((a &&& 0x0FFF) + (b &&& 0x0FFF) + carry > 0x0FFF))
      let f3 := Flags.set_carry f2 (decide (a + b + carry > 0xFFFF))
      some (.Two result, f3)
  | _, _ => none

/-- `alu::sub` (alu.rs lines 142-161). Note the half-carry test reuses the addition
formula `(a & 0x0F) + (b & 0x0F) > 0x0F` from the source. -/
def Alu.sub (value1 value2 : Bytes) (flags : Nat) : Option (Bytes × Nat) :=
  match value1, value2 with
  | .One a, .One b =>
      let result := (a + 256 - b) % 256
      let f1 := Flags.set_zero flags (result == 0)
      let f2 := Flags.set_subtraction f1 true
      let f3 := Flags.set_half_carry f2 (decide ((a &&& 0x0F) + (b &&& 0x0F) > 0x0F))
      let f4 := Flags.set_carry f3 (decide (a < b))
      some (.One result, f4)
  | .Two a, .Two b =>
      let result := (a + 65536 - b) % 65536
      let f1 := Flags.set_subtraction flags true
      let f2 := Flags.set_half_carry f1 (decide ((a &&& 0x0FFF) + (b &&& 0x0FFF) > 0x0FFF))
      let f3 := Flags.set_carry f2 (decide (a < b))
      some (.Two result, f3)
  | _, _ => none

/-- `alu::sbc` (alu.rs lines 163-184). -/
def Alu.sbc (value1 value2 : Bytes) (flags : Nat) : Option (Bytes × Nat) :=
  match value1, value2 with
  | .One a, .One b =>
      let carry := if Flags.carry flags then 1 else 0
      let result := ((a + 256 - b) % 256 + 256 - carry) % 256
      let f1 := Flags.set_zero flags (result == 0)
      let f2 := Flags.set_subtraction f1 true
      let f3 := Flags.set_half_carry f2 (decide ((a &&& 0x0F) < (b &&& 0x0F) + carry))
      let f4 := Flags.set_carry f3 (decide (a < b + carry))
      some (.One result, f4)
  | .Two a, .Two b =>
      let carry := if Flags.carry flags then 1 else 0
      let result := ((a + 65536 - b) % 65536 + 65536 - carry) % 65536
      let f1 := Flags.set_subtraction flags true
      let f2 := Flags.set_half_carry f1 (decide ((a &&& 0x0FFF) < (b &&& 0x0FFF) + carry))
      let f3 := Flags.set_carry f2 (decide (a < b + carry))
      some (.Two result, f3)
  | _, _ => none

/-- `alu::rlc` (alu.rs lines 186-194). -/
def Alu.rlc (value flags : Nat) : Nat × Nat :=
  let carry := value &&& 0x80 != 0
  let result := ((value <<< 1) % 256) ||| (value >>> 7)
  let f1 := Flags.set_zero flags false
  let f2 := Flags.set_subtraction f1 false
  let f3 := Flags.set_half_carry f2 false
  (result, Flags.set_carry f3 carry)

/-- `alu::rrc` (alu.rs lines 196-204). -/
def Alu.rrc (value flags : Nat) : Nat × Nat :=
  let carry := value &&& 0x01 != 0
  let result := (value >>> 1) ||| ((value <<< 7) % 256)
  let f1 := Flags.set_zero flags false
  let f2 := Flags.set_subtraction f1 false
  let f3 := Flags.set_half_carry f2 false
  (result, Flags.set_carry f3 carry)

/-- `alu::rl` (alu.rs lines 206-214): rotates through the existing carry flag. -/
def Alu.rl (value flags : Nat) : Nat × Nat :=
  let carry := value &&& 0x80 != 0
  let result := ((value <<< 1) % 256) ||| (if Flags.carry flags then 1 else 0)
  let f1 := Flags.set_zero flags false
  let f2 := Flags.set_subtraction f1 false
  let f3 := Flags.set_half_carry f2 false
  (result, Flags.set_carry f3 carry)

/-- `alu::rr` (alu.rs lines 216-224). -/
def Alu.rr (value flags : Nat) : Nat × Nat :=
  let carry := value &&& 0x01 != 0
  let result := (value >>> 1) ||| (((if Flags.carry flags then 1 else 0) <<< 7) % 256)
  let f1 := Flags.set_zero flags false
  let f2 := Flags.set_subtraction f1 false
  let f3 := Flags.set_half_carry f2 false
  (result, Flags.set_carry f3 carry)

/-- `alu::daa` (alu.rs lines 226-249). -/
def Alu.daa (a f : Nat) : Nat × Nat :=
  if Flags.subtraction f then
    let adjustment := (if Flags.half_carry f then 0x06 else 0) ||| (if Flags.carry f then 0x60 else 0)
    let a1 := (a + 256 - adjustment) % 256
    let f1 := Flags.set_zero f (a1 == 0)
    (a1, Flags.set_half_carry f1 false)
  else
    let adj1 := if Flags.half_carry f || decide (a &&& 0x0F > 0x09) then 0x06 else 0
    let needCarry := Flags.carry f || decide (a > 0x99)
    let adjustment := adj1 ||| (if needCarry then 0x60 else 0)
    let f0 := if needCarry then Flags.set_carry f true else f
    let a1 := (a + adjustment) % 256
    let f1 := Flags.set_zero f0 (a1 == 0)
    (a1, Flags.set_half_carry f1 false)

/-- `alu::and` (alu.rs lines 251-258). -/
def Alu.and (value1 value2 flags : Nat) : Nat × Nat :=
  let result := value1 &&& value2
  let f1 := Flags.set_zero flags (result == 0)
  let f2 := Flags.set_subtraction f1 false
  let f3 := Flags.set_half_carry f2 true
  (result, Flags.set_carry f3 false)

/-- `alu::xor` (alu.rs lines 260-267). -/
def Alu.xor (value1 value2 flags : Nat) : Nat × Nat :=
  let result := value1 ^^^ value2
  let f1 := Flags.set_zero flags (result == 0)
  let f2 := Flags.set_subtraction f1 false
  let f3 := Flags.set_half_carry f2 false
  (result, Flags.set_carry f3 false)

/-- `alu::or` (alu.rs lines 269-276). -/
def Alu.or (value1 value2 flags : Nat) : Nat × Nat :=
  let result := value1 ||| value2
  let f1 := Flags.set_zero flags (result == 0)
  let f2 := Flags.set_subtraction f1 false
  let f3 := Flags.set_half_carry f2 false
  (result, Flags.set_carry f3 false)

/-- `alu::cp` (alu.rs lines 278-284): flags only, with the borrow-style half-carry test. -/
def Alu.cp (value1 value2 flags : Nat) : Nat :=
  let result := (value1 + 256 - value2) % 256
  let f1 := Flags.set_zero flags (result == 0)
  let f2 := Flags.set_subtraction f1 true
  let f3 := Flags.set_half_carry f2 (decide ((value1 &&& 0x0F) < (value2 &&& 0x0F)))
  Flags.set_carry f3 (decide (value1 < value2))

/-- Operand locations (enum `Location`, src/src/cpu/ops.rs lines 98-135). -/
inductive Location where
  | A | B | C | D | E | H | L
  | AF | BC | HL | DE | SP
  | Const8 | Const16
  | FlagNz | FlagZ | FlagNc | FlagC
deriving DecidableEq, Repr

/-- Addressing modes over a Location (enum `Operand`, ops.rs lines 207-214). -/
inductive Operand where
  | Immediate (location : Location)
  | Memory (location : Location)
  | HighMemory (location : Location)
deriving DecidableEq, Repr

/-- `Location::imm` (ops.rs lines 150-152). -/
def Location.imm (l : Location) : Operand := Operand.Immediate l

/-- `Location::mem` (ops.rs lines 155-157). -/
def Location.mem (l : Location) : Operand := Operand.Memory l

/-- `Location::himem` (ops.rs lines 160-162). -/
def Location.himem (l : Location) : Operand := Operand.HighMemory l

/-- Modelled from the spec: `Location::ind`, used by map.rs's table, constructs the
memory-indirect addressing mode over a Location (spec section 3, Operand, *Memory*);
the newer Operand type it belongs to is not present under src/. -/
def Location.ind (l : Location) : Operand := Operand.Memory l

/-- Modelled from the spec: `Location::high`, used by map.rs's table, constructs the
high-memory addressing mode over a Location (spec section 3, Operand, *HighMemory*);
the newer Operand type it belongs to is not present under src/. -/
def Location.high (l : Location) : Operand := Operand.HighMemory l

/-- `Location::read` (ops.rs lines 175-202). Immediate constants are fetched from the
byte(s) after the opcode; `Addr::next().unwrap()` panics (`none`) at the top of memory. -/
def Location.read (loc : Location) (r : Registers) (m : Ram) : Option Bytes :=
  match loc with
  | .A => some (.One r.a)
  | .B => some (.One r.b)
  | .C => some (.One r.c)
  | .D => some (.One r.d)
  | .E => some (.One r.e)
  | .H => some (.One r.h)
  | .L => some (.One r.l)
  | .AF => some r.af
  | .BC => some r.bc
  | .HL => some r.hl
  | .DE => some r.de
  | .SP => some (.Two r.sp)
  | .Const8 => do
      let p ← Addr.next r.pc
      some (.One (m.get p))
  | .Const16 => do
      let p ← Addr.next r.pc
      let q ← Addr.next p
      some (Bytes.from_bytes (m.get p) (m.get q))
  | .FlagNz => some (Bytes.ofBool (! Flags.zero r.f))
  | .FlagZ => some (Bytes.ofBool (Flags.zero r.f))
  | .FlagNc => some (Bytes.ofBool (! Flags.carry r.f))
  | .FlagC => some (Bytes.ofBool (Flags.carry r.f))

/-- `Location::write` (ops.rs lines 165-172): only `A` and `BC` are supported; every
other Location hits the catch-all `panic!()` (`none`). -/
def Location.write (loc : Location) (r : Registers) (m : Ram) (values : Bytes) :
    Option (Registers × Ram) :=
  match loc with
  | .A => do
      let v ← values.single
      some ({ r with a := v }, m)
  | .BC => do
      let r1 ← r.set_bc values
      some (r1, m)
  | _ => none

/-- `Operand::read` (ops.rs lines 218-234). -/
def Operand.read (op : Operand) (r : Registers) (m : Ram) : Option Bytes :=
  match op with
  | .Immediate location => location.read r m
  | .Memory location => do
      let addr_bytes ← location.read r m
      let addr ← Addr.ofBytes addr_bytes
      some (.One (m.get addr))
  | .HighMemory location => do
      let addr_bytes ← location.read r m
      let addr_lo_byte ← addr_bytes.single
      let addr ← Addr.ofBytes (Bytes.from_bytes addr_lo_byte 0xFF)
      some (.One (m.get addr))

/-- `Operand::write` (ops.rs lines 237-252): Memory and HighMemory modes route the
value into `Ram::set_word` at the resolved address. -/
def Operand.write (op : Operand) (r : Registers) (m : Ram) (values : Bytes) :
    Option (Registers × Ram) :=
  match op with
  | .Immediate location => location.write r m values
  | .Memory location => do
      let addr_bytes ← location.read r m
      let addr ← Addr.ofBytes addr_bytes
      let m1 ← m.set_word addr values
      some (r, m1)
  | .HighMemory location => do
      let addr_bytes ← location.read r m
      let addr_lo_byte ← addr_bytes.single
      let addr ← Addr.ofBytes (Bytes.from_bytes addr_lo_byte 0xFF)
      let m1 ← m.set_word addr values
      some (r, m1)

/-- Instruction mnemonics (enum `Mnemonic`, ops.rs lines 15-92). -/
inductive Mnemonic where
  | Nop
  | Stop (op : Operand)
  | Ld (dst src : Operand)
  | Inc (dst : Operand)
  | Dec (dst : Operand)
  | Rlca
  | Rrca
  | Add (dst src : Operand)
  | Adc (dst src : Operand)
  | Sub (dst src : Operand)
  | Sbc (dst src : Operand)
  | Rla
  | Jr (offset : Operand)
  | Jrc (cc offset : Operand)
  | Rra
  | Daa
  | Cpl
  | Scf
  | Ccf
  | Halt
  | And (dst src : Operand)
  | Xor (dst src : Operand)
  | Or (dst src : Operand)
  | Cp (dst src : Operand)
  | Ret
  | Retc (cc : Operand)
  | Pop (dst : Operand)
  | Jp (dst : Operand)
  | Jpc (cc dst : Operand)
  | Call (dst : Operand)
  | Callc (cc dst : Operand)
  | Push (src : Operand)
  | Rst (dst : Nat)
  | Reti
  | Ei
  | Di
  | Ldhl (op : Operand)
  | Invalid (msg : String)
deriving DecidableEq, Repr

/-- A CPU instruction (struct `Instruction`, ops.rs lines 256-263). -/
structure Instruction where
  mnemonic : Mnemonic
  bytes : Nat
  cycles : List Nat
deriving DecidableEq, Repr

/-- `Instruction::new_ex` (ops.rs lines 267-273). -/
def Instruction.new_ex (m : Mnemonic) (bytes : Nat) (cycles : List Nat) : Instruction :=
  ⟨m, bytes, cycles⟩

/-- `Instruction::new` (ops.rs lines 276-278). -/
def Instruction.new (m : Mnemonic) (bytes cycles : Nat) : Instruction :=
  Instruction.new_ex m bytes [cycles]

/-- Rust `as i8` on a byte: values 128..=255 become negative. -/
def as_i8 (v : Nat) : Int :=
  if v < 128 then (v : Int) else (v : Int) - 256

/-- Rust `as u16` on a signed 32-bit intermediate: truncate modulo 2^16. -/
def wrap_u16 (x : Int) : Nat := (x.emod 65536).toNat

/-- The body of `Instruction::execute`'s match over the mnemonic (ops.rs lines 289-457).
Returns the updated memory and registers together with the optional `new_pc` that the
`Jr`/`Jrc` arms set; every panicking path (`expect`, `unwrap`, `todo!`, `panic!`) is
`none`. -/
def execMnemonic : Mnemonic → Ram → Registers → Option (Ram × Registers × Option Nat)
  | .Nop, m, r => some (m, r, none)
  | .Ld dst src, m, r => do
      let v ← src.read r m
      let (r1, m1) ← dst.write r m v
      some (m1, r1, none)
  | .Inc dst, m, r => do
      let bytes ← dst.read r m
      let (increased, f1) := Alu.inc bytes r.f
      let (r1, m1) ← dst.write { r with f := f1 } m increased
      some (m1, r1, none)
  | .Dec dst, m, r => do
      let bytes ← dst.read r m
      let (decreased, f1) := Alu.dec bytes r.f
      let (r1, m1) ← dst.write { r with f := f1 } m decreased
      some (m1, r1, none)
  | .Add dst src, m, r => do
      let dst_bytes ← dst.read r m
      let src_bytes ← src.read r m
      let (sum, f1) ← Alu.add dst_bytes src_bytes r.f
      let (r1, m1) ← dst.write { r with f := f1 } m sum
      some (m1, r1, none)
  | .Adc dst src, m, r => do
      let dst_bytes ← dst.read r m
      let src_bytes ← src.read r m
      let (sum, f1) ← Alu.adc dst_bytes src_bytes r.f
      let (r1, m1) ← dst.write { r with f := f1 } m sum
      some (m1, r1, none)
  | .Sub dst src, m, r => do
      let dst_bytes ← dst.read r m
      let src_bytes ← src.read r m
      let (difference, f1) ← Alu.sub dst_bytes src_bytes r.f
      let (r1, m1) ← dst.write { r with f := f1 } m difference
      some (m1, r1, none)
  | .Sbc dst src, m, r => do
      let dst_bytes ← dst.read r m
      let src_bytes ← src.read r m
      let (difference, f1) ← Alu.sbc dst_bytes src_bytes r.f
      let (r1, m1) ← dst.write { r with f := f1 } m difference
      some (m1, r1, none)
  | .Rlca, m, r =>
      let (a1, f1) := Alu.rlc r.a r.f
      some (m, { r with a := a1, f := f1 }, none)
  | .Rrca, m, r =>
      let (a1, f1) := Alu.rrc r.a r.f
      some (m, { r with a := a1, f := f1 }, none)
  | .Rla, m, r =>
      let (a1, f1) := Alu.rl r.a r.f
      some (m, { r with a := a1, f := f1 }, none)
  | .Rra, m, r =>
      let (a1, f1) := Alu.rr r.a r.f
      some (m, { r with a := a1, f := f1 }, none)
  | .Jr offset, m, r => do
      let ob ← offset.read r m
      let o ← ob.single
      some (m, r, some (wrap_u16 ((r.pc : Int) + 2 + as_i8 o)))
  | .Jrc cc offset, m, r => do
      let fb ← cc.read r m
      let flag ← fb.single
      let ob ← offset.read r m
      let o ← ob.single
      if flag == 1 then
        some (m, r, some (wrap_u16 ((r.pc : Int) + 2 + as_i8 o)))
      else
        some (m, r, none)
  | .Daa, m, r =>
      let (a1, f1) := Alu.daa r.a r.f
      some (m, { r with a := a1, f := f1 }, none)
  | .Cpl, m, r =>
      some (m, { r with a := r.a ^^^ 255,
                        f := r.f ||| (SUBTRACTION_FLAG_BITMASK ||| HALF_CARRY_FLAG_BITMASK) }, none)
  | .Scf, m, r =>
      some (m, { r with f := r.f ||| CARRY_FLAG_BITMASK }, none)
  | .Ccf, m, r =>
      let f1 := r.f ^^^ CARRY_FLAG_BITMASK
      let f2 := f1 &&& (255 - SUBTRACTION_FLAG_BITMASK)
      let f3 := f2 &&& (255 - HALF_CARRY_FLAG_BITMASK)
      some (m, { r with f := f3 }, none)
  | .And dst src, m, r => do
      let db ← dst.read r m
      let dst_byte ← db.single
      let sb ← src.read r m
      let src_byte ← sb.single
      let (result, f1) := Alu.and dst_byte src_byte r.f
      let (r1, m1) ← dst.write { r with f := f1 } m (.One result)
      some (m1, r1, none)
  | .Xor dst src, m, r => do
      let db ← dst.read r m
      let dst_byte ← db.single
      let sb ← src.read r m
      let src_byte ← sb.single
      let (result, f1) := Alu.xor dst_byte src_byte r.f
      let (r1, m1) ← dst.write { r with f := f1 } m (.One result)
      some (m1, r1, none)
  | .Or dst src, m, r => do
      let db ← dst.read r m
      let dst_byte ← db.single
      let sb ← src.read r m
      let src_byte ← sb.single
      let (result, f1) := Alu.or dst_byte src_byte r.f
      let (r1, m1) ← dst.write { r with f := f1 } m (.One result)
      some (m1, r1, none)
  | .Cp dst src, m, r => do
      let db ← dst.read r m
      let dst_byte ← db.single
      let sb ← src.read r m
      let src_byte ← sb.single
      some (m, { r with f := Alu.cp dst_byte src_byte r.f }, none)
  | .Ret, m, r => do
      let lo := m.get r.sp
      let hi := m.get ((r.sp + 1) % 65536)
      let pcv ← (Bytes.from_bytes lo hi).word
      some (m, { r with pc := pcv, sp := (r.sp + 2) % 65536 }, none)
  | .Retc cc, m, r => do
      let fb ← cc.read r m
      let flag ← fb.single
      if flag == 1 then
        let lo := m.get r.sp
        let hi := m.get ((r.sp + 1) % 65536)
        let pcv ← (Bytes.from_bytes lo hi).word
        some (m, { r with pc := pcv, sp := (r.sp + 2) % 65536 }, none)
      else
        some (m, r, none)
  | .Stop _, _, _ => none
  | .Halt, _, _ => none
  | .Reti, _, _ => none
  | .Ei, _, _ => none
  | .Di, _, _ => none
  | .Jp dst, m, r => do
      let lob ← dst.read r m
      let lo ← lob.single
      let hib ← dst.read r m
      let hi ← hib.single
      let pcv ← (Bytes.from_bytes lo hi).word
      some (m, { r with pc := pcv }, none)
  | .Jpc cc dst, m, r => do
      let fb ← cc.read r m
      let flag ← fb.single
      if flag == 1 then
        let lob ← dst.read r m
        let lo ← lob.single
        let hib ← dst.read r m
        let hi ← hib.single
        let pcv ← (Bytes.from_bytes lo hi).word
        some (m, { r with pc := pcv }, none)
      else
        some (m, r, none)
  | .Call dst, m, r => do
      let lob ← dst.read r m
      let lo ← lob.single
      let hib ← dst.read r m
      let hi ← hib.single
      let ret := (r.pc + 2) % 65536
      let m1 := m.set ((r.sp + 65535) % 65536) (ret / 256 % 256)
      let m2 := m1.set ((r.sp + 65534) % 65536) (ret % 256)
      let pcv ← (Bytes.from_bytes lo hi).word
      some (m2, { r with sp := (r.sp + 65534) % 65536, pc := pcv }, none)
  | .Callc condition dst, m, r => do
      let fb ← condition.read r m
      let flag ← fb.single
      if flag == 1 then
        let lob ← dst.read r m
        let lo ← lob.single
        let hib ← dst.read r m
        let hi ← hib.single
        let ret := (r.pc + 2) % 65536
        let m1 := m.set ((r.sp + 65535) % 65536) (ret / 256 % 256)
        let m2 := m1.set ((r.sp + 65534) % 65536) (ret % 256)
        let pcv ← (Bytes.from_bytes lo hi).word
        some (m2, { r with sp := (r.sp + 65534) % 65536, pc := pcv }, none)
      else
        some (m, r, none)
  | .Push src, m, r => do
      let bytes ← src.read r m
      let hi ← bytes.hi
      let lo ← bytes.lo
      let m1 := m.set ((r.sp + 65535) % 65536) hi
      let m2 := m1.set ((r.sp + 65534) % 65536) lo
      some (m2, { r with sp := (r.sp + 65534) % 65536 }, none)
  | .Pop dst, m, r => do
      let lo := m.get r.sp
      let hi := m.get ((r.sp + 1) % 65536)
      let (r1, m1) ← dst.write r m (Bytes.from_bytes hi lo)
      some (m1, { r1 with sp := (r1.sp + 2) % 65536 }, none)
  | .Rst dst, m, r =>
      let ret := r.pc
      let m1 := m.set ((r.sp + 65535) % 65536) (ret / 256 % 256)
      let m2 := m1.set ((r.sp + 65534) % 65536) (ret % 256)
      some (m2, { r with sp := (r.sp + 65534) % 65536, pc := dst % 65536 }, none)
  | .Ldhl op, m, r => do
      let ob ← op.read r m
      let o ← ob.single
      let result := wrap_u16 ((r.sp : Int) + as_i8 o)
      let r1 ← r.set_hl (Bytes.Two result)
      some (m, r1, none)
  | .Invalid _, _, _ => none

/-- `Instruction::execute` (ops.rs lines 286-464): run the mnemonic, then either take
the `new_pc` set by a relative jump, or advance the (possibly already reassigned) PC by
the instruction's byte length. -/
def Instruction.execute (i : Instruction) (m : Ram) (r : Registers) :
    Option (Ram × Registers) := do
  let (m1, r1, new_pc) ← execMnemonic i.mnemonic m r
  match new_pc with
  | some p => some (m1, { r1 with pc := p })
  | none => some (m1, { r1 with pc := (r1.pc + i.bytes) % 65536 })

section OpcodeTable

open Mnemonic Location

/-- `build_opcode_map` (src/src/cpu/ops.rs lines 470-1029), transcribed entry by entry.
The source leaves opcodes 0x22, 0x2A, 0x32 and 0x3A commented out with TODO notes
("load A into [HL], increment/decrement HL"), so those four bytes have no entry; the
reserved/extended bytes are present as explicit `Invalid` entries. -/
def build_opcode_map : List (Nat × Instruction) := [
  (0x00, Instruction.new Nop 1 4),
  (0x01, Instruction.new (Ld BC.imm Const16.imm) 3 12),
  (0x02, Instruction.new (Ld BC.mem A.imm) 1 8),
  (0x03, Instruction.new (Inc BC.imm) 1 8),
  (0x04, Instruction.new (Inc B.imm) 1 4),
  (0x05, Instruction.new (Dec B.imm) 1 4),
  (0x06, Instruction.new (Ld B.imm Const8.imm) 2 8),
  (0x07, Instruction.new Rlca 1 4),
  (0x08, Instruction.new (Ld Const16.mem SP.imm) 3 20),
  (0x09, Instruction.new (Add HL.imm BC.imm) 1 8),
  (0x0A, Instruction.new (Ld A.imm BC.mem) 1 8),
  (0x0B, Instruction.new (Dec BC.imm) 1 8),
  (0x0C, Instruction.new (Inc C.imm) 1 4),
  (0x0D, Instruction.new (Dec C.imm) 1 4),
  (0x0E, Instruction.new (Ld C.imm Const8.imm) 2 8),
  (0x0F, Instruction.new Rrca 1 4),
  (0x10, Instruction.new (Stop Const8.imm) 2 4),
  (0x11, Instruction.new (Ld DE.imm Const16.imm) 3 12),
  (0x12, Instruction.new (Ld DE.mem A.imm) 1 8),
  (0x13, Instruction.new (Inc DE.imm) 1 8),
  (0x14, Instruction.new (Inc D.imm) 1 4),
  (0x15, Instruction.new (Dec D.imm) 1 4),
  (0x16, Instruction.new (Ld D.imm Const8.imm) 2 6),
  (0x17, Instruction.new Rla 1 4),
  (0x18, Instruction.new (Jr Const8.imm) 2 12),
  (0x19, Instruction.new (Add HL.imm DE.imm) 1 8),
  (0x1A, Instruction.new (Ld A.imm DE.mem) 1 8),
  (0x1B, Instruction.new (Dec DE.imm) 1 8),
  (0x1C, Instruction.new (Inc E.imm) 1 4),
  (0x1D, Instruction.new (Dec E.imm) 1 4),
  (0x1E, Instruction.new (Ld E.imm Const8.imm) 2 8),
  (0x1F, Instruction.new Rra 1 4),
  (0x20, Instruction.new_ex (Jrc FlagNz.imm Const8.imm) 2 [12, 8]),
  (0x21, Instruction.new (Ld HL.imm Const16.imm) 3 12),
  (0x23, Instruction.new (Inc HL.imm) 1 8),
  (0x24, Instruction.new (Inc H.imm) 1 4),
  (0x25, Instruction.new (Dec H.imm) 1 4),
  (0x26, Instruction.new (Ld H.imm Const8.imm) 2 8),
  (0x27, Instruction.new Daa 1 4),
  (0x28, Instruction.new_ex (Jrc FlagZ.imm Const8.imm) 2 [12, 8]),
  (0x29, Instruction.new (Add HL.imm HL.imm) 1 8),
  (0x2B, Instruction.new (Dec HL.imm) 1 8),
  (0x2C, Instruction.new (Inc L.imm) 1 4),
  (0x2D, Instruction.new (Dec L.imm) 1 4),
  (0x2E, Instruction.new (Ld L.imm Const8.imm) 2 8),
  (0x2F, Instruction.new Cpl 1 4),
  (0x30, Instruction.new_ex (Jrc FlagNc.imm Const8.imm) 2 [12, 8]),
  (0x31, Instruction.new (Ld SP.imm Const16.imm) 3 12),
  (0x33, Instruction.new (Inc SP.imm) 1 8),
  (0x34, Instruction.new (Inc HL.mem) 1 12),
  (0x35, Instruction.new (Dec HL.mem) 1 12),
  (0x36, Instruction.new (Ld HL.mem Const8.imm) 2 12),
  (0x37, Instruction.new Scf 1 4),
  (0x38, Instruction.new_ex (Jrc FlagC.imm Const8.imm) 2 [12, 8]),
  (0x39, Instruction.new (Add HL.imm SP.imm) 1 8),
  (0x3B, Instruction.new (Dec SP.imm) 1 8),
  (0x3C, Instruction.new (Inc A.imm) 1 4),
  (0x3D, Instruction.new (Dec A.imm) 1 4),
  (0x3E, Instruction.new (Ld A.imm Const8.imm) 2 8),
  (0x3F, Instruction.new Ccf 1 4),
  (0x40, Instruction.new (Ld B.imm B.imm) 1 4),
  (0x41, Instruction.new (Ld B.imm C.imm) 1 4),
  (0x42, Instruction.new (Ld B.imm D.imm) 1 4),
  (0x43, Instruction.new (Ld B.imm E.imm) 1 4),
  (0x44, Instruction.new (Ld B.imm H.imm) 1 4),
  (0x45, Instruction.new (Ld B.imm L.imm) 1 4),
  (0x46, Instruction.new (Ld B.imm HL.mem) 1 8),
  (0x47, Instruction.new (Ld B.imm A.imm) 1 4),
  (0x48, Instruction.new (Ld C.imm B.imm) 1 4),
  (0x49, Instruction.new (Ld C.imm C.imm) 1 4),
  (0x4A, Instruction.new (Ld C.imm D.imm) 1 4),
  (0x4B, Instruction.new (Ld C.imm E.imm) 1 4),
  (0x4C, Instruction.new (Ld C.imm H.imm) 1 4),
  (0x4D, Instruction.new (Ld C.imm L.imm) 1 4),
  (0x4E, Instruction.new (Ld C.imm HL.mem) 1 8),
  (0x4F, Instruction.new (Ld C.imm A.imm) 1 4),
  (0x50, Instruction.new (Ld D.imm B.imm) 1 4),
  (0x51, Instruction.new (Ld D.imm C.imm) 1 4),
  (0x52, Instruction.new (Ld D.imm D.imm) 1 4),
  (0x53, Instruction.new (Ld D.imm E.imm) 1 4),
  (0x54, Instruction.new (Ld D.imm H.imm) 1 4),
  (0x55, Instruction.new (Ld D.imm L.imm) 1 4),
  (0x56, Instruction.new (Ld D.imm HL.mem) 1 8),
  (0x57, Instruction.new (Ld D.imm A.imm) 1 4),
  (0x58, Instruction.new (Ld E.imm B.imm) 1 4),
  (0x59, Instruction.new (Ld E.imm C.imm) 1 4),
  (0x5A, Instruction.new (Ld E.imm D.imm) 1 4),
  (0x5B, Instruction.new (Ld E.imm E.imm) 1 4),
  (0x5C, Instruction.new (Ld E.imm H.imm) 1 4),
  (0x5D, Instruction.new (Ld E.imm L.imm) 1 4),
  (0x5E, Instruction.new (Ld E.imm HL.mem) 1 8),
  (0x5F, Instruction.new (Ld E.imm A.imm) 1 4),
  (0x60, Instruction.new (Ld H.imm B.imm) 1 4),
  (0x61, Instruction.new (Ld H.imm C.imm) 1 4),
  (0x62, Instruction.new (Ld H.imm D.imm) 1 4),
  (0x63, Instruction.new (Ld H.imm E.imm) 1 4),
  (0x64, Instruction.new (Ld H.imm H.imm) 1 4),
  (0x65, Instruction.new (Ld H.imm L.imm) 1 4),
  (0x66, Instruction.new (Ld H.imm HL.mem) 1 8),
  (0x67, Instruction.new (Ld H.imm A.imm) 1 4),
  (0x68, Instruction.new (Ld L.imm B.imm) 1 4),
  (0x69, Instruction.new (Ld L.imm C.imm) 1 4),
  (0x6A, Instruction.new (Ld L.imm D.imm) 1 4),
  (0x6B, Instruction.new (Ld L.imm E.imm) 1 4),
  (0x6C, Instruction.new (Ld L.imm H.imm) 1 4),
  (0x6D, Instruction.new (Ld L.imm L.imm) 1 4),
  (0x6E, Instruction.new (Ld L.imm HL.mem) 1 8),
  (0x6F, Instruction.new (Ld L.imm A.imm) 1 4),
  (0x70, Instruction.new (Ld HL.mem B.imm) 1 8),
  (0x71, Instruction.new (Ld HL.mem C.imm) 1 8),
  (0x72, Instruction.new (Ld HL.mem D.imm) 1 8),
  (0x73, Instruction.new (Ld HL.mem E.imm) 1 8),
  (0x74, Instruction.new (Ld HL.mem H.imm) 1 8),
  (0x75, Instruction.new (Ld HL.mem L.imm) 1 8),
  (0x76, Instruction.new Halt 1 4),
  (0x77, Instruction.new (Ld HL.mem A.imm) 1 8),
  (0x78, Instruction.new (Ld A.imm B.imm) 1 4),
  (0x79, Instruction.new (Ld A.imm C.imm) 1 4),
  (0x7A, Instruction.new (Ld A.imm D.imm) 1 4),
  (0x7B, Instruction.new (Ld A.imm E.imm) 1 4),
  (0x7C, Instruction.new (Ld A.imm H.imm) 1 4),
  (0x7D, Instruction.new (Ld A.imm L.imm) 1 4),
  (0x7E, Instruction.new (Ld A.imm HL.mem) 1 8),
  (0x7F, Instruction.new (Ld A.imm A.imm) 1 4),
  (0x80, Instruction.new (Add A.imm B.imm) 1 4),
  (0x81, Instruction.new (Add A.imm C.imm) 1 4),
  (0x82, Instruction.new (Add A.imm D.imm) 1 4),
  (0x83, Instruction.new (Add A.imm E.imm) 1 4),
  (0x84, Instruction.new (Add A.imm H.imm) 1 4),
  (0x85, Instruction.new (Add A.imm L.imm) 1 4),
  (0x86, Instruction.new (Add A.imm HL.mem) 1 8),
  (0x87, Instruction.new (Add A.imm A.imm) 1 4),
  (0x88, Instruction.new (Adc A.imm B.imm) 1 4),
  (0x89, Instruction.new (Adc A.imm C.imm) 1 4),
  (0x8A, Instruction.new (Adc A.imm D.imm) 1 4),
  (0x8B, Instruction.new (Adc A.imm E.imm) 1 4),
  (0x8C, Instruction.new (Adc A.imm H.imm) 1 4),
  (0x8D, Instruction.new (Adc A.imm L.imm) 1 4),
  (0x8E, Instruction.new (Adc A.imm HL.mem) 1 8),
  (0x8F, Instruction.new (Adc A.imm A.imm) 1 4),
  (0x90, Instruction.new (Sub A.imm B.imm) 1 4),
  (0x91, Instruction.new (Sub A.imm C.imm) 1 4),
  (0x92, Instruction.new (Sub A.imm D.imm) 1 4),
  (0x93, Instruction.new (Sub A.imm E.imm) 1 4),
  (0x94, Instruction.new (Sub A.imm H.imm) 1 4),
  (0x95, Instruction.new (Sub A.imm L.imm) 1 4),
  (0x96, Instruction.new (Sub A.imm HL.mem) 1 8),
  (0x97, Instruction.new (Sub A.imm A.imm) 1 4),
  (0x98, Instruction.new (Sbc A.imm B.imm) 1 4),
  (0x99, Instruction.new (Sbc A.imm C.imm) 1 4),
  (0x9A, Instruction.new (Sbc A.imm D.imm) 1 4),
  (0x9B, Instruction.new (Sbc A.imm E.imm) 1 4),
  (0x9C, Instruction.new (Sbc A.imm H.imm) 1 4),
  (0x9D, Instruction.new (Sbc A.imm L.imm) 1 4),
  (0x9E, Instruction.new (Sbc A.imm HL.mem) 1 8),
  (0x9F, Instruction.new (Sbc A.imm A.imm) 1 4),
  (0xA0, Instruction.new (And A.imm B.imm) 1 4),
  (0xA1, Instruction.new (And A.imm C.imm) 1 4),
  (0xA2, Instruction.new (And A.imm D.imm) 1 4),
  (0xA3, Instruction.new (And A.imm E.imm) 1 4),
  (0xA4, Instruction.new (And A.imm H.imm) 1 4),
  (0xA5, Instruction.new (And A.imm L.imm) 1 4),
  (0xA6, Instruction.new (And A.imm HL.mem) 1 8),
  (0xA7, Instruction.new (And A.imm A.imm) 1 4),
  (0xA8, Instruction.new (Xor A.imm B.imm) 1 4),
  (0xA9, Instruction.new (Xor A.imm C.imm) 1 4),
  (0xAA, Instruction.new (Xor A.imm D.imm) 1 4),
  (0xAB, Instruction.new (Xor A.imm E.imm) 1 4),
  (0xAC, Instruction.new (Xor A.imm H.imm) 1 4),
  (0xAD, Instruction.new (Xor A.imm L.imm) 1 4),
  (0xAE, Instruction.new (Xor A.imm HL.mem) 1 8),
  (0xAF, Instruction.new (Xor A.imm A.imm) 1 4),
  (0xB0, Instruction.new (Or A.imm B.imm) 1 4),
  (0xB1, Instruction.new (Or A.imm C.imm) 1 4),
  (0xB2, Instruction.new (Or A.imm D.imm) 1 4),
  (0xB3, Instruction.new (Or A.imm E.imm) 1 4),
  (0xB4, Instruction.new (Or A.imm H.imm) 1 4),
  (0xB5, Instruction.new (Or A.imm L.imm) 1 4),
  (0xB6, Instruction.new (Or A.imm HL.mem) 1 8),
  (0xB7, Instruction.new (Or A.imm A.imm) 1 4),
  (0xB8, Instruction.new (Cp A.imm B.imm) 1 4),
  (0xB9, Instruction.new (Cp A.imm C.imm) 1 4),
  (0xBA, Instruction.new (Cp A.imm D.imm) 1 4),
  (0xBB, Instruction.new (Cp A.imm E.imm) 1 4),
  (0xBC, Instruction.new (Cp A.imm H.imm) 1 4),
  (0xBD, Instruction.new (Cp A.imm L.imm) 1 4),
  (0xBE, Instruction.new (Cp A.imm L.imm) 1 8),
  (0xBF, Instruction.new (Cp A.imm A.imm) 1 4),
  (0xC0, Instruction.new_ex (Retc FlagNz.imm) 1 [20, 8]),
  (0xC1, Instruction.new (Pop BC.imm) 1 12),
  (0xC2, Instruction.new_ex (Jpc FlagNz.imm Const16.imm) 3 [16, 12]),
  (0xC3, Instruction.new (Jp Const16.imm) 3 16),
  (0xC4, Instruction.new_ex (Callc FlagNz.imm Const16.imm) 3 [24, 12]),
  (0xC5, Instruction.new (Push BC.imm) 1 16),
  (0xC6, Instruction.new (Ld A.imm Const8.imm) 2 8),
  (0xC7, Instruction.new (Rst 0x00) 1 32),
  (0xC8, Instruction.new_ex (Retc FlagZ.imm) 1 [20, 8]),
  (0xC9, Instruction.new Ret 1 16),
  (0xCA, Instruction.new_ex (Jpc FlagZ.imm Const16.imm) 3 [16, 12]),
  (0xCB, Instruction.new (Invalid "0xCB") 1 4),
  (0xCC, Instruction.new_ex (Callc FlagZ.imm Const16.imm) 3 [24, 12]),
  (0xCD, Instruction.new (Call Const16.imm) 3 24),
  (0xCE, Instruction.new (Ld A.imm Const8.imm) 2 8),
  (0xCF, Instruction.new (Rst 0x08) 1 32),
  (0xD0, Instruction.new_ex (Retc FlagNc.imm) 1 [20, 8]),
  (0xD1, Instruction.new (Pop DE.imm) 1 12),
  (0xD2, Instruction.new_ex (Jpc FlagNc.imm Const16.imm) 3 [16, 12]),
  (0xD3, Instruction.new (Invalid "0xD3") 1 4),
  (0xD4, Instruction.new_ex (Callc FlagNc.imm Const16.imm) 3 [24, 12]),
  (0xD5, Instruction.new (Push DE.imm) 1 16),
  (0xD6, Instruction.new (Ld A.imm Const8.imm) 2 8),
  (0xD7, Instruction.new (Rst 0x10) 1 32),
  (0xD8, Instruction.new_ex (Retc FlagC.imm) 1 [20, 8]),
  (0xD9, Instruction.new Reti 1 16),
  (0xDA, Instruction.new_ex (Jpc FlagC.imm Const16.imm) 3 [16, 12]),
  (0xDB, Instruction.new (Invalid "0xDB") 1 4),
  (0xDC, Instruction.new_ex (Callc FlagC.imm Const16.imm) 3 [24, 12]),
  (0xDD, Instruction.new (Invalid "0xDD") 1 4),
  (0xDE, Instruction.new (Ld A.imm Const8.imm) 2 8),
  (0xDF, Instruction.new (Rst 0x18) 1 32),
  (0xE0, Instruction.new (Ld Const8.himem A.imm) 2 12),
  (0xE1, Instruction.new (Pop HL.imm) 1 12),
  (0xE2, Instruction.new (Ld C.himem A.imm) 1 8),
  (0xE3, Instruction.new (Invalid "0xE3") 1 4),
  (0xE4, Instruction.new (Invalid "0xE4") 1 4),
  (0xE5, Instruction.new (Push HL.imm) 1 16),
  (0xE6, Instruction.new (Ld A.imm Const8.imm) 2 8),
  (0xE7, Instruction.new (Rst 0x20) 1 32),
  (0xE8, Instruction.new (Add SP.imm Const8.imm) 2 16),
  (0xE9, Instruction.new (Jp HL.imm) 1 4),
  (0xEA, Instruction.new (Ld Const16.mem A.imm) 3 16),
  (0xEB, Instruction.new (Invalid "0xEB") 1 4),
  (0xEC, Instruction.new (Invalid "0xEC") 1 4),
  (0xED, Instruction.new (Invalid "0xED") 1 4),
  (0xEE, Instruction.new (Ld A.imm Const8.imm) 2 8),
  (0xEF, Instruction.new (Rst 0x28) 1 32),
  (0xF0, Instruction.new (Ld A.imm Const8.himem) 2 12),
  (0xF1, Instruction.new (Pop AF.imm) 1 12),
  (0xF2, Instruction.new (Ld A.imm C.himem) 1 8),
  (0xF3, Instruction.new Di 1 4),
  (0xF4, Instruction.new (Invalid "0xF4") 1 4),
  (0xF5, Instruction.new (Push AF.imm) 1 16),
  (0xF6, Instruction.new (Ld A.imm Const8.imm) 2 8),
  (0xF7, Instruction.new (Rst 0x30) 1 32),
  (0xF8, Instruction.new (Ldhl Const8.imm) 2 12),
  (0xF9, Instruction.new (Ld SP.mem HL.imm) 1 8),
  (0xFA, Instruction.new (Ld A.imm Const16.mem) 3 16),
  (0xFB, Instruction.new Ei 1 4),
  (0xFC, Instruction.new (Invalid "0xFC") 1 4),
  (0xFD, Instruction.new (Invalid "0xFD") 1 4),
  (0xFE, Instruction.new (Cp A.imm Const8.imm) 2 8),
  (0xFF, Instruction.new (Rst 0x38) 1 32)]

end OpcodeTable

/-- `Instruction::decode` (ops.rs lines 281-283): a direct lookup of the opcode in the map. -/
def Instruction.decode (opcode : Nat) (opcode_map : List (Nat × Instruction)) :
    Option Instruction :=
  (opcode_map.find? (fun p => p.1 == opcode)).map (fun p => p.2)

/-- Lookup in the opcode map built by `build_opcode_map`. -/
def decode (opcode : Nat) : Option Instruction :=
  Instruction.decode opcode build_opcode_map

section MapTable

open Mnemonic Location

/-- The entries of `map::build_opcode_map`'s array literal (src/src/cpu/map.rs lines
10-570), transcribed entry by entry. The table is the ops.rs one with `ind()`/`high()`
in place of `mem()`/`himem()` and two differences: opcode 0xF9 is `Ld(SP, HL)` by
value, and the 0xE8 entry is a live `todo!()` (map.rs line 520), modelled as `none`.
The same four opcodes 0x22, 0x2A, 0x32 and 0x3A are absent. -/
def Map.opcode_entries : List (Nat × Option Instruction) := [
  (0x00, some (Instruction.new Nop 1 4)),
  (0x01, some (Instruction.new (Ld BC.imm Const16.imm) 3 12)),
  (0x02, some (Instruction.new (Ld BC.ind A.imm) 1 8)),
  (0x03, some (Instruction.new (Inc BC.imm) 1 8)),
  (0x04, some (Instruction.new (Inc B.imm) 1 4)),
  (0x05, some (Instruction.new (Dec B.imm) 1 4)),
  (0x06, some (Instruction.new (Ld B.imm Const8.imm) 2 8)),
  (0x07, some (Instruction.new Rlca 1 4)),
  (0x08, some (Instruction.new (Ld Const16.ind SP.imm) 3 20)),
  (0x09, some (Instruction.new (Add HL.imm BC.imm) 1 8)),
  (0x0A, some (Instruction.new (Ld A.imm BC.ind) 1 8)),
  (0x0B, some (Instruction.new (Dec BC.imm) 1 8)),
  (0x0C, some (Instruction.new (Inc C.imm) 1 4)),
  (0x0D, some (Instruction.new (Dec C.imm) 1 4)),
  (0x0E, some (Instruction.new (Ld C.imm Const8.imm) 2 8)),
  (0x0F, some (Instruction.new Rrca 1 4)),
  (0x10, some (Instruction.new (Stop Const8.imm) 2 4)),
  (0x11, some (Instruction.new (Ld DE.imm Const16.imm) 3 12)),
  (0x12, some (Instruction.new (Ld DE.ind A.imm) 1 8)),
  (0x13, some (Instruction.new (Inc DE.imm) 1 8)),
  (0x14, some (Instruction.new (Inc D.imm) 1 4)),
  (0x15, some (Instruction.new (Dec D.imm) 1 4)),
  (0x16, some (Instruction.new (Ld D.imm Const8.imm) 2 6)),
  (0x17, some (Instruction.new Rla 1 4)),
  (0x18, some (Instruction.new (Jr Const8.imm) 2 12)),
  (0x19, some (Instruction.new (Add HL.imm DE.imm) 1 8)),
  (0x1A, some (Instruction.new (Ld A.imm DE.ind) 1 8)),
  (0x1B, some (Instruction.new (Dec DE.imm) 1 8)),
  (0x1C, some (Instruction.new (Inc E.imm) 1 4)),
  (0x1D, some (Instruction.new (Dec E.imm) 1 4)),
  (0x1E, some (Instruction.new (Ld E.imm Const8.imm) 2 8)),
  (0x1F, some (Instruction.new Rra 1 4)),
  (0x20, some (Instruction.new_ex (Jrc FlagNz.imm Const8.imm) 2 [12, 8])),
  (0x21, some (Instruction.new (Ld HL.imm Const16.imm) 3 12)),
  (0x23, some (Instruction.new (Inc HL.imm) 1 8)),
  (0x24, some (Instruction.new (Inc H.imm) 1 4)),
  (0x25, some (Instruction.new (Dec H.imm) 1 4)),
  (0x26, some (Instruction.new (Ld H.imm Const8.imm) 2 8)),
  (0x27, some (Instruction.new Daa 1 4)),
  (0x28, some (Instruction.new_ex (Jrc FlagZ.imm Const8.imm) 2 [12, 8])),
  (0x29, some (Instruction.new (Add HL.imm HL.imm) 1 8)),
  (0x2B, some (Instruction.new (Dec HL.imm) 1 8)),
  (0x2C, some (Instruction.new (Inc L.imm) 1 4)),
  (0x2D, some (Instruction.new (Dec L.imm) 1 4)),
  (0x2E, some (Instruction.new (Ld L.imm Const8.imm) 2 8)),
  (0x2F, some (Instruction.new Cpl 1 4)),
  (0x30, some (Instruction.new_ex (Jrc FlagNc.imm Const8.imm) 2 [12, 8])),
  (0x31, some (Instruction.new (Ld SP.imm Const16.imm) 3 12)),
  (0x33, some (Instruction.new (Inc SP.imm) 1 8)),
  (0x34, some (Instruction.new (Inc HL.ind) 1 12)),
  (0x35, some (Instruction.new (Dec HL.ind) 1 12)),
  (0x36, some (Instruction.new (Ld HL.ind Const8.imm) 2 12)),
  (0x37, some (Instruction.new Scf 1 4)),
  (0x38, some (Instruction.new_ex (Jrc FlagC.imm Const8.imm) 2 [12, 8])),
  (0x39, some (Instruction.new (Add HL.imm SP.imm) 1 8)),
  (0x3B, some (Instruction.new (Dec SP.imm) 1 8)),
  (0x3C, some (Instruction.new (Inc A.imm) 1 4)),
  (0x3D, some (Instruction.new (Dec A.imm) 1 4)),
  (0x3E, some (Instruction.new (Ld A.imm Const8.imm) 2 8)),
  (0x3F, some (Instruction.new Ccf 1 4)),
  (0x40, some (Instruction.new (Ld B.imm B.imm) 1 4)),
  (0x41, some (Instruction.new (Ld B.imm C.imm) 1 4)),
  (0x42, some (Instruction.new (Ld B.imm D.imm) 1 4)),
  (0x43, some (Instruction.new (Ld B.imm E.imm) 1 4)),
  (0x44, some (Instruction.new (Ld B.imm H.imm) 1 4)),
  (0x45, some (Instruction.new (Ld B.imm L.imm) 1 4)),
  (0x46, some (Instruction.new (Ld B.imm HL.ind) 1 8)),
  (0x47, some (Instruction.new (Ld B.imm A.imm) 1 4)),
  (0x48, some (Instruction.new (Ld C.imm B.imm) 1 4)),
  (0x49, some (Instruction.new (Ld C.imm C.imm) 1 4)),
  (0x4A, some (Instruction.new (Ld C.imm D.imm) 1 4)),
  (0x4B, some (Instruction.new (Ld C.imm E.imm) 1 4)),
  (0x4C, some (Instruction.new (Ld C.imm H.imm) 1 4)),
  (0x4D, some (Instruction.new (Ld C.imm L.imm) 1 4)),
  (0x4E, some (Instruction.new (Ld C.imm HL.ind) 1 8)),
  (0x4F, some (Instruction.new (Ld C.imm A.imm) 1 4)),
  (0x50, some (Instruction.new (Ld D.imm B.imm) 1 4)),
  (0x51, some (Instruction.new (Ld D.imm C.imm) 1 4)),
  (0x52, some (Instruction.new (Ld D.imm D.imm) 1 4)),
  (0x53, some (Instruction.new (Ld D.imm E.imm) 1 4)),
  (0x54, some (Instruction.new (Ld D.imm H.imm) 1 4)),
  (0x55, some (Instruction.new (Ld D.imm L.imm) 1 4)),
  (0x56, some (Instruction.new (Ld D.imm HL.ind) 1 8)),
  (0x57, some (Instruction.new (Ld D.imm A.imm) 1 4)),
  (0x58, some (Instruction.new (Ld E.imm B.imm) 1 4)),
  (0x59, some (Instruction.new (Ld E.imm C.imm) 1 4)),
  (0x5A, some (Instruction.new (Ld E.imm D.imm) 1 4)),
  (0x5B, some (Instruction.new (Ld E.imm E.imm) 1 4)),
  (0x5C, some (Instruction.new (Ld E.imm H.imm) 1 4)),
  (0x5D, some (Instruction.new (Ld E.imm L.imm) 1 4)),
  (0x5E, some (Instruction.new (Ld E.imm HL.ind) 1 8)),
  (0x5F, some (Instruction.new (Ld E.imm A.imm) 1 4)),
  (0x60, some (Instruction.new (Ld H.imm B.imm) 1 4)),
  (0x61, some (Instruction.new (Ld H.imm C.imm) 1 4)),
  (0x62, some (Instruction.new (Ld H.imm D.imm) 1 4)),
  (0x63, some (Instruction.new (Ld H.imm E.imm) 1 4)),
  (0x64, some (Instruction.new (Ld H.imm H.imm) 1 4)),
  (0x65, some (Instruction.new (Ld H.imm L.imm) 1 4)),
  (0x66, some (Instruction.new (Ld H.imm HL.ind) 1 8)),
  (0x67, some (Instruction.new (Ld H.imm A.imm) 1 4)),
  (0x68, some (Instruction.new (Ld L.imm B.imm) 1 4)),
  (0x69, some (Instruction.new (Ld L.imm C.imm) 1 4)),
  (0x6A, some (Instruction.new (Ld L.imm D.imm) 1 4)),
  (0x6B, some (Instruction.new (Ld L.imm E.imm) 1 4)),
  (0x6C, some (Instruction.new (Ld L.imm H.imm) 1 4)),
  (0x6D, some (Instruction.new (Ld L.imm L.imm) 1 4)),
  (0x6E, some (Instruction.new (Ld L.imm HL.ind) 1 8)),
  (0x6F, some (Instruction.new (Ld L.imm A.imm) 1 4)),
  (0x70, some (Instruction.new (Ld HL.ind B.imm) 1 8)),
  (0x71, some (Instruction.new (Ld HL.ind C.imm) 1 8)),
  (0x72, some (Instruction.new (Ld HL.ind D.imm) 1 8)),
  (0x73, some (Instruction.new (Ld HL.ind E.imm) 1 8)),
  (0x74, some (Instruction.new (Ld HL.ind H.imm) 1 8)),
  (0x75, some (Instruction.new (Ld HL.ind L.imm) 1 8)),
  (0x76, some (Instruction.new Halt 1 4)),
  (0x77, some (Instruction.new (Ld HL.ind A.imm) 1 8)),
  (0x78, some (Instruction.new (Ld A.imm B.imm) 1 4)),
  (0x79, some (Instruction.new (Ld A.imm C.imm) 1 4)),
  (0x7A, some (Instruction.new (Ld A.imm D.imm) 1 4)),
  (0x7B, some (Instruction.new (Ld A.imm E.imm) 1 4)),
  (0x7C, some (Instruction.new (Ld A.imm H.imm) 1 4)),
  (0x7D, some (Instruction.new (Ld A.imm L.imm) 1 4)),
  (0x7E, some (Instruction.new (Ld A.imm HL.ind) 1 8)),
  (0x7F, some (Instruction.new (Ld A.imm A.imm) 1 4)),
  (0x80, some (Instruction.new (Add A.imm B.imm) 1 4)),
  (0x81, some (Instruction.new (Add A.imm C.imm) 1 4)),
  (0x82, some (Instruction.new (Add A.imm D.imm) 1 4)),
  (0x83, some (Instruction.new (Add A.imm E.imm) 1 4)),
  (0x84, some (Instruction.new (Add A.imm H.imm) 1 4)),
  (0x85, some (Instruction.new (Add A.imm L.imm) 1 4)),
  (0x86, some (Instruction.new (Add A.imm HL.ind) 1 8)),
  (0x87, some (Instruction.new (Add A.imm A.imm) 1 4)),
  (0x88, some (Instruction.new (Adc A.imm B.imm) 1 4)),
  (0x89, some (Instruction.new (Adc A.imm C.imm) 1 4)),
  (0x8A, some (Instruction.new (Adc A.imm D.imm) 1 4)),
  (0x8B, some (Instruction.new (Adc A.imm E.imm) 1 4)),
  (0x8C, some (Instruction.new (Adc A.imm H.imm) 1 4)),
  (0x8D, some (Instruction.new (Adc A.imm L.imm) 1 4)),
  (0x8E, some (Instruction.new (Adc A.imm HL.ind) 1 8)),
  (0x8F, some (Instruction.new (Adc A.imm A.imm) 1 4)),
  (0x90, some (Instruction.new (Sub A.imm B.imm) 1 4)),
  (0x91, some (Instruction.new (Sub A.imm C.imm) 1 4)),
  (0x92, some (Instruction.new (Sub A.imm D.imm) 1 4)),
  (0x93, some (Instruction.new (Sub A.imm E.imm) 1 4)),
  (0x94, some (Instruction.new (Sub A.imm H.imm) 1 4)),
  (0x95, some (Instruction.new (Sub A.imm L.imm) 1 4)),
  (0x96, some (Instruction.new (Sub A.imm HL.ind) 1 8)),
  (0x97, some (Instruction.new (Sub A.imm A.imm) 1 4)),
  (0x98, some (Instruction.new (Sbc A.imm B.imm) 1 4)),
  (0x99, some (Instruction.new (Sbc A.imm C.imm) 1 4)),
  (0x9A, some (Instruction.new (Sbc A.imm D.imm) 1 4)),
  (0x9B, some (Instruction.new (Sbc A.imm E.imm) 1 4)),
  (0x9C, some (Instruction.new (Sbc A.imm H.imm) 1 4)),
  (0x9D, some (Instruction.new (Sbc A.imm L.imm) 1 4)),
  (0x9E, some (Instruction.new (Sbc A.imm HL.ind) 1 8)),
  (0x9F, some (Instruction.new (Sbc A.imm A.imm) 1 4)),
  (0xA0, some (Instruction.new (And A.imm B.imm) 1 4)),
  (0xA1, some (Instruction.new (And A.imm C.imm) 1 4)),
  (0xA2, some (Instruction.new (And A.imm D.imm) 1 4)),
  (0xA3, some (Instruction.new (And A.imm E.imm) 1 4)),
  (0xA4, some (Instruction.new (And A.imm H.imm) 1 4)),
  (0xA5, some (Instruction.new (And A.imm L.imm) 1 4)),
  (0xA6, some (Instruction.new (And A.imm HL.ind) 1 8)),
  (0xA7, some (Instruction.new (And A.imm A.imm) 1 4)),
  (0xA8, some (Instruction.new (Xor A.imm B.imm) 1 4)),
  (0xA9, some (Instruction.new (Xor A.imm C.imm) 1 4)),
  (0xAA, some (Instruction.new (Xor A.imm D.imm) 1 4)),
  (0xAB, some (Instruction.new (Xor A.imm E.imm) 1 4)),
  (0xAC, some (Instruction.new (Xor A.imm H.imm) 1 4)),
  (0xAD, some (Instruction.new (Xor A.imm L.imm) 1 4)),
  (0xAE, some (Instruction.new (Xor A.imm HL.ind) 1 8)),
  (0xAF, some (Instruction.new (Xor A.imm A.imm) 1 4)),
  (0xB0, some (Instruction.new (Or A.imm B.imm) 1 4)),
  (0xB1, some (Instruction.new (Or A.imm C.imm) 1 4)),
  (0xB2, some (Instruction.new (Or A.imm D.imm) 1 4)),
  (0xB3, some (Instruction.new (Or A.imm E.imm) 1 4)),
  (0xB4, some (Instruction.new (Or A.imm H.imm) 1 4)),
  (0xB5, some (Instruction.new (Or A.imm L.imm) 1 4)),
  (0xB6, some (Instruction.new (Or A.imm HL.ind) 1 8)),
  (0xB7, some (Instruction.new (Or A.imm A.imm) 1 4)),
  (0xB8, some (Instruction.new (Cp A.imm B.imm) 1 4)),
  (0xB9, some (Instruction.new (Cp A.imm C.imm) 1 4)),
  (0xBA, some (Instruction.new (Cp A.imm D.imm) 1 4)),
  (0xBB, some (Instruction.new (Cp A.imm E.imm) 1 4)),
  (0xBC, some (Instruction.new (Cp A.imm H.imm) 1 4)),
  (0xBD, some (Instruction.new (Cp A.imm L.imm) 1 4)),
  (0xBE, some (Instruction.new (Cp A.imm L.imm) 1 8)),
  (0xBF, some (Instruction.new (Cp A.imm A.imm) 1 4)),
  (0xC0, some (Instruction.new_ex (Retc FlagNz.imm) 1 [20, 8])),
  (0xC1, some (Instruction.new (Pop BC.imm) 1 12)),
  (0xC2, some (Instruction.new_ex (Jpc FlagNz.imm Const16.imm) 3 [16, 12])),
  (0xC3, some (Instruction.new (Jp Const16.imm) 3 16)),
  (0xC4, some (Instruction.new_ex (Callc FlagNz.imm Const16.imm) 3 [24, 12])),
  (0xC5, some (Instruction.new (Push BC.imm) 1 16)),
  (0xC6, some (Instruction.new (Ld A.imm Const8.imm) 2 8)),
  (0xC7, some (Instruction.new (Rst 0x00) 1 32)),
  (0xC8, some (Instruction.new_ex (Retc FlagZ.imm) 1 [20, 8])),
  (0xC9, some (Instruction.new Ret 1 16)),
  (0xCA, some (Instruction.new_ex (Jpc FlagZ.imm Const16.imm) 3 [16, 12])),
  (0xCB, some (Instruction.new (Invalid "0xCB") 1 4)),
  (0xCC, some (Instruction.new_ex (Callc FlagZ.imm Const16.imm) 3 [24, 12])),
  (0xCD, some (Instruction.new (Call Const16.imm) 3 24)),
  (0xCE, some (Instruction.new (Ld A.imm Const8.imm) 2 8)),
  (0xCF, some (Instruction.new (Rst 0x08) 1 32)),
  (0xD0, some (Instruction.new_ex (Retc FlagNc.imm) 1 [20, 8])),
  (0xD1, some (Instruction.new (Pop DE.imm) 1 12)),
  (0xD2, some (Instruction.new_ex (Jpc FlagNc.imm Const16.imm) 3 [16, 12])),
  (0xD3, some (Instruction.new (Invalid "0xD3") 1 4)),
  (0xD4, some (Instruction.new_ex (Callc FlagNc.imm Const16.imm) 3 [24, 12])),
  (0xD5, some (Instruction.new (Push DE.imm) 1 16)),
  (0xD6, some (Instruction.new (Ld A.imm Const8.imm) 2 8)),
  (0xD7, some (Instruction.new (Rst 0x10) 1 32)),
  (0xD8, some (Instruction.new_ex (Retc FlagC.imm) 1 [20, 8])),
  (0xD9, some (Instruction.new Reti 1 16)),
  (0xDA, some (Instruction.new_ex (Jpc FlagC.imm Const16.imm) 3 [16, 12])),
  (0xDB, some (Instruction.new (Invalid "0xDB") 1 4)),
  (0xDC, some (Instruction.new_ex (Callc FlagC.imm Const16.imm) 3 [24, 12])),
  (0xDD, some (Instruction.new (Invalid "0xDD") 1 4)),
  (0xDE, some (Instruction.new (Ld A.imm Const8.imm) 2 8)),
  (0xDF, some (Instruction.new (Rst 0x18) 1 32)),
  (0xE0, some (Instruction.new (Ld Const8.high A.imm) 2 12)),
  (0xE1, some (Instruction.new (Pop HL.imm) 1 12)),
  (0xE2, some (Instruction.new (Ld C.high A.imm) 1 8)),
  (0xE3, some (Instruction.new (Invalid "0xE3") 1 4)),
  (0xE4, some (Instruction.new (Invalid "0xE4") 1 4)),
  (0xE5, some (Instruction.new (Push HL.imm) 1 16)),
  (0xE6, some (Instruction.new (Ld A.imm Const8.imm) 2 8)),
  (0xE7, some (Instruction.new (Rst 0x20) 1 32)),
  (0xE8, none),
  (0xE9, some (Instruction.new (Jp HL.imm) 1 4)),
  (0xEA, some (Instruction.new (Ld Const16.ind A.imm) 3 16)),
  (0xEB, some (Instruction.new (Invalid "0xEB") 1 4)),
  (0xEC, some (Instruction.new (Invalid "0xEC") 1 4)),
  (0xED, some (Instruction.new (Invalid "0xED") 1 4)),
  (0xEE, some (Instruction.new (Ld A.imm Const8.imm) 2 8)),
  (0xEF, some (Instruction.new (Rst 0x28) 1 32)),
  (0xF0, some (Instruction.new (Ld A.imm Const8.high) 2 12)),
  (0xF1, some (Instruction.new (Pop AF.imm) 1 12)),
  (0xF2, some (Instruction.new (Ld A.imm C.high) 1 8)),
  (0xF3, some (Instruction.new Di 1 4)),
  (0xF4, some (Instruction.new (Invalid "0xF4") 1 4)),
  (0xF5, some (Instruction.new (Push AF.imm) 1 16)),
  (0xF6, some (Instruction.new (Ld A.imm Const8.imm) 2 8)),
  (0xF7, some (Instruction.new (Rst 0x30) 1 32)),
  (0xF8, some (Instruction.new (Ldhl Const8.imm) 2 12)),
  (0xF9, some (Instruction.new (Ld SP.imm HL.imm) 1 8)),
  (0xFA, some (Instruction.new (Ld A.imm Const16.ind) 3 16)),
  (0xFB, some (Instruction.new Ei 1 4)),
  (0xFC, some (Instruction.new (Invalid "0xFC") 1 4)),
  (0xFD, some (Instruction.new (Invalid "0xFD") 1 4)),
  (0xFE, some (Instruction.new (Cp A.imm Const8.imm) 2 8)),
  (0xFF, some (Instruction.new (Rst 0x38) 1 32))]

end MapTable

/-- `map::build_opcode_map` (src/src/cpu/map.rs lines 10-570): Rust evaluates every
entry of the array literal before the map is built, so the `(0xE8, todo!())` entry
panics and the construction never completes. -/
def Map.build_opcode_map : Option (List (Nat × Instruction)) :=
  Map.opcode_entries.mapM (fun p => p.2.map (fun i => (p.1, i)))

/-- The CPU (struct `Cpu`, src/src/cpu/cpu.rs lines 9-13). -/
structure Cpu where
  memory : Ram
  registers : Registers
  opcode_map : List (Nat × Instruction)

/-- `Cpu::new` (cpu.rs lines 17-23): zeroed memory and registers plus the opcode table
from `map::build_opcode_map` — whose construction panics on the live `todo!()` at
opcode 0xE8, so `Cpu::new` itself panics (`none`) and never yields a Cpu. -/
def Cpu.new : Option Cpu := do
  let map ← Map.build_opcode_map
  some { memory := Ram.new, registers := Registers.new, opcode_map := map }

/-- Modelled from the spec (section 4.1): Memory `write_word(addr, word)` stores the low
byte at `addr` and the high byte at `addr + 1`. The Rust method `Ram::write_word` that
`Cpu::execute` calls is part of this repository but is not present under src/. -/
def Ram.write_word (m : Ram) (address word : Nat) : Ram :=
  (m.set (address % 65536) (word % 256)).set ((address + 1) % 65536) (word / 256 % 256)

/-- The `Call` arm of `Cpu::execute` (src/src/cpu/cpu.rs lines 205-211 and the PC
postlude at lines 247-251): compute `ret = pc + 2`, write it as a word at `sp - 2`,
decrement SP by 2, then set PC to the destination word read through the operand (the
16-bit operand read helper is missing from src/ and is modelled from the spec as
reading the operand's two-byte value). -/
def Cpu.execute_call (dst : Operand) (m : Ram) (r : Registers) : Option (Ram × Registers) := do
  let ret := (r.pc + 2) % 65536
  let m1 := m.write_word ((r.sp + 65534) % 65536) ret
  let r1 := { r with sp := (r.sp + 65534) % 65536 }
  let ab ← dst.read r1 m1
  let pcv ← ab.word
  some (m1, { r1 with pc := pcv })

/-! ## Claims -/

/-- C1, counterexample: the claim says the opcode table contains an entry for every
byte 0..=255, but the lookup of byte 0x22 (LD [HL+],A, commented out with a TODO in the
source) finds no entry. -/
theorem c1_opcode_0x22_has_no_entry : decode 0x22 = none := rfl

set_option maxRecDepth 4096 in
set_option maxHeartbeats 1000000 in
/-- C1 (amended): for every opcode byte b in 0..=255 other than 0x22, 0x2A, 0x32 and
0x3A (which the source leaves unimplemented and absent), the opcode table built by
`build_opcode_map` contains an entry for b; reserved codes map to explicit Invalid
entries rather than being absent. -/
theorem c1_opcode_map_total_except_four :
    ∀ b < 256, b ≠ 0x22 → b ≠ 0x2A → b ≠ 0x32 → b ≠ 0x3A →
      (decode b).isSome = true := by
  decide

/-- C1, witness: the amended totality applied at opcode 0x00. -/
theorem c1_opcode_map_witness : (decode 0x00).isSome = true :=
  c1_opcode_map_total_except_four 0x00 (by decide) (by decide) (by decide) (by decide) (by decide)

/-- Registers for the C2 failing input: BC holds 0x1234 (B=0x12, C=0x34), SP=0xFFFE. -/
def c2_regs : Registers := { Registers.new with b := 0x12, c := 0x34, sp := 0xFFFE }

/-- C2: executing Push BC and then Pop BC from B=0x12, C=0x34, SP=0xFFFE leaves
B=0x34 and C=0x12 — the two bytes of the pair swapped, because the Pop arm passes
`(hi, lo)` to `Bytes::from_bytes(lo, hi)` — while SP is restored to 0xFFFE. The claim
that the pair holds its original value again is false on the code. -/
theorem c2_push_pop_swaps_the_pair_bytes :
    (((Instruction.new (.Push (.Immediate .BC)) 1 16).execute Ram.new c2_regs).bind
        (fun p => (Instruction.new (.Pop (.Immediate .BC)) 1 12).execute p.1 p.2)).map
      (fun q => (q.2.b, q.2.c, q.2.sp)) = some (0x34, 0x12, 0xFFFE) := rfl

/-- Memory for the C3/C4 failing input: the two bytes after PC=0x100 encode nn=0x0200. -/
def c3_mem : Ram := Ram.new.set 0x102 0x02

/-- Registers for the C3 failing input: PC=0x100, SP=0xFFFE. -/
def c3_regs : Registers := { Registers.new with sp := 0xFFFE }

/-- C3: at PC=0x100, SP=0xFFFE, destination nn=0x0200, the 3-byte Call does not push
PC+3=0x103. `Instruction::execute`'s Call arm (ops.rs) panics outright (`single()` on
the 16-bit operand read), and the `Cpu::execute` Call arm (cpu.rs) pushes the return
address 0x102 = PC+2 (high byte 0x01 at SP-1, low byte 0x02 at SP-2, where the claim
requires low byte 0x03), with SP=0xFFFC and PC=0x0200 afterwards. -/
theorem c3_call_pushes_pc_plus_two :
    decode 0xCD = some (Instruction.new (.Call (.Immediate .Const16)) 3 24)
    ∧ (Instruction.new (.Call (.Immediate .Const16)) 3 24).execute c3_mem c3_regs = none
    ∧ (Cpu.execute_call (.Immediate .Const16) c3_mem c3_regs).map
        (fun p => (p.1.get 0xFFFD, p.1.get 0xFFFC, p.2.sp, p.2.pc))
      = some (0x01, 0x02, 0xFFFC, 0x0200) :=
  ⟨rfl, rfl, rfl⟩

/-- C4: the unconditional Jp (opcode 0xC3) never leaves PC equal to its destination:
at PC=0x100 with destination operand nn=0x0200, `Instruction::execute`'s Jp arm calls
`single()` on the 16-bit destination read and panics (`none`) instead of setting PC. -/
theorem c4_jp_panics_on_its_16bit_operand :
    decode 0xC3 = some (Instruction.new (.Jp (.Immediate .Const16)) 3 16)
    ∧ (Instruction.new (.Jp (.Immediate .Const16)) 3 16).execute c3_mem Registers.new = none :=
  ⟨rfl, rfl⟩

/-- C5: `sub(0x08, 0x08)` with initial flags 0x00 yields 0 with flags 0xE0, i.e.
Z=true, N=true, C=false but H=true — the source computes H with the addition formula
`(a & 0x0F) + (b & 0x0F) > 0x0F`, so the claim's H=false fails whenever the low nibble
of a is at least 8. -/
theorem c5_sub_self_sets_half_carry :
    Alu.sub (Bytes.One 0x08) (Bytes.One 0x08) 0x00 = some (Bytes.One 0, 0xE0)
    ∧ Flags.zero 0xE0 = true ∧ Flags.subtraction 0xE0 = true
    ∧ Flags.half_carry 0xE0 = true ∧ Flags.carry 0xE0 = false := by
  decide

/-- Registers for the C6 failing input: A=0x42 and BC=0x1234. -/
def c6_regs : Registers := { Registers.new with a := 0x42, b := 0x12, c := 0x34 }

/-- C6: writing the 8-bit value 0x42 through the Memory-mode operand (BC) does not
write one byte at the effective address 0x1234: `Operand::write` routes the value into
`Ram::set_word`, whose `lo()`/`hi()` calls (and its own `debug_assert!(values.is_two())`)
reject a one-byte value, so the write panics (`none`) and opcode 0x02 (LD [BC],A)
cannot execute. -/
theorem c6_byte_write_through_memory_operand_panics :
    decode 0x02 = some (Instruction.new (.Ld (.Memory .BC) (.Immediate .A)) 1 8)
    ∧ (Operand.Memory Location.BC).write c6_regs Ram.new (Bytes.One 0x42) = none
    ∧ (Instruction.new (.Ld (.Memory .BC) (.Immediate .A)) 1 8).execute Ram.new c6_regs = none :=
  ⟨rfl, rfl, rfl⟩

/-- `Flags::set_zero` only touches bit 7, so bit 4 of the flags is unchanged. -/
theorem testBit4_set_zero (f : Nat) (z : Bool) :
    (Flags.set_zero f z).testBit 4 = f.testBit 4 := by
  cases z
  · show (f &&& 127).testBit 4 = f.testBit 4
    rw [Nat.testBit_land]
    simp [show Nat.testBit 127 4 = true from rfl]
  · show (f ||| 128).testBit 4 = f.testBit 4
    rw [Nat.testBit_lor]
    simp [show Nat.testBit 128 4 = false from rfl]

/-- `Flags::set_subtraction` only touches bit 6, so bit 4 of the flags is unchanged. -/
theorem testBit4_set_subtraction (f : Nat) (z : Bool) :
    (Flags.set_subtraction f z).testBit 4 = f.testBit 4 := by
  cases z
  · show (f &&& 191).testBit 4 = f.testBit 4
    rw [Nat.testBit_land]
    simp [show Nat.testBit 191 4 = true from rfl]
  · show (f ||| 64).testBit 4 = f.testBit 4
    rw [Nat.testBit_lor]
    simp [show Nat.testBit 64 4 = false from rfl]

/-- `Flags::set_half_carry` only touches bit 5, so bit 4 of the flags is unchanged. -/
theorem testBit4_set_half_carry (f : Nat) (z : Bool) :
    (Flags.set_half_carry f z).testBit 4 = f.testBit 4 := by
  cases z
  · show (f &&& 223).testBit 4 = f.testBit 4
    rw [Nat.testBit_land]
    simp [show Nat.testBit 223 4 = true from rfl]
  · show (f ||| 32).testBit 4 = f.testBit 4
    rw [Nat.testBit_lor]
    simp [show Nat.testBit 32 4 = false from rfl]

/-- Two numbers with the same bit 4 agree after masking with 16. -/
theorem and16_of_testBit4 {a b : Nat} (h : a.testBit 4 = b.testBit 4) :
    a &&& 16 = b &&& 16 := by
  apply Nat.eq_of_testBit_eq
  intro i
  rw [Nat.testBit_land, Nat.testBit_land]
  rcases eq_or_ne i 4 with rfl | hi
  · rw [h]
  · rw [show Nat.testBit 16 i = false from ?_]
    · simp
    · rw [show (16 : Nat) = 2 ^ 4 from rfl]
      exact Nat.testBit_two_pow_of_ne (Ne.symm hi)

/-- C7: for every input value and every initial flag byte, `alu::inc` and `alu::dec`
leave the carry bit (bit 4) of the flags unchanged; on a 16-bit (two-byte) value they
leave the entire flag byte unchanged. -/
theorem c7_inc_dec_preserve_carry :
    (∀ (f v : Nat),
        (Alu.inc (Bytes.One v) f).2 &&& CARRY_FLAG_BITMASK = f &&& CARRY_FLAG_BITMASK
        ∧ (Alu.dec (Bytes.One v) f).2 &&& CARRY_FLAG_BITMASK = f &&& CARRY_FLAG_BITMASK)
    ∧ (∀ f w, (Alu.inc (Bytes.Two w) f).2 = f ∧ (Alu.dec (Bytes.Two w) f).2 = f) := by
  constructor
  · intro f v
    constructor
    · show (Alu.inc (Bytes.One v) f).2 &&& 16 = f &&& 16
      apply and16_of_testBit4
      show (Flags.set_half_carry (Flags.set_subtraction (Flags.set_zero f _) false) _).testBit 4
          = f.testBit 4
      rw [testBit4_set_half_carry, testBit4_set_subtraction, testBit4_set_zero]
    · show (Alu.dec (Bytes.One v) f).2 &&& 16 = f &&& 16
      apply and16_of_testBit4
      show (Flags.set_half_carry (Flags.set_subtraction (Flags.set_zero f _) true) _).testBit 4
          = f.testBit 4
      rw [testBit4_set_half_carry, testBit4_set_subtraction, testBit4_set_zero]
  · exact fun _ _ => ⟨rfl, rfl⟩

set_option maxRecDepth 16384 in
/-- C8: there is no state "immediately after Cpu::new()": `Cpu::new` builds its table
with `map::build_opcode_map`, whose array literal contains a live `todo!()` for opcode
0xE8, evaluated eagerly, so construction panics (`none`) unconditionally. The
constructors the claim cites would have produced exactly the claimed state: `Ram::new`
zeroes all cells and `Registers::new` zeroes every register with PC=0x100. -/
theorem c8_cpu_new_panics :
    Cpu.new = none
    ∧ Map.build_opcode_map = none
    ∧ (∀ addr : Nat, Ram.new.get addr = 0)
    ∧ Registers.new.a = 0 ∧ Registers.new.b = 0 ∧ Registers.new.c = 0
    ∧ Registers.new.d = 0 ∧ Registers.new.e = 0 ∧ Registers.new.h = 0
    ∧ Registers.new.l = 0 ∧ Registers.new.f = 0 ∧ Registers.new.sp = 0
    ∧ Registers.new.pc = 0x100 :=
  ⟨rfl, rfl, fun _ => rfl, rfl, rfl, rfl, rfl, rfl, rfl, rfl, rfl, rfl, rfl⟩

/-- C9: `Location::write` stores a value only for the Locations A and BC; every other
Location hits the catch-all `panic!()`, and executing any Ld whose destination is a
direct register Location other than A or BC (e.g. opcode 0x06, Ld(B, Const8)) fails
instead of performing the write. -/
theorem c9_location_write_only_a_and_bc (loc : Location)
    (hA : loc ≠ Location.A) (hBC : loc ≠ Location.BC) :
    (∀ (r : Registers) (m : Ram) (v : Bytes), loc.write r m v = none)
    ∧ ∀ (src : Operand) (m : Ram) (r : Registers) (bytes : Nat) (cycles : List Nat),
        (Instruction.new_ex (.Ld (.Immediate loc) src) bytes cycles).execute m r = none := by
  have hw : ∀ (r : Registers) (m : Ram) (v : Bytes), loc.write r m v = none := by
    intro r m v
    cases loc
    case A => exact absurd rfl hA
    case BC => exact absurd rfl hBC
    all_goals rfl
  refine ⟨hw, ?_⟩
  intro src m r bytes cycles
  cases hsrc : src.read r m with
  | none => simp [Instruction.execute, Instruction.new_ex, execMnemonic, hsrc]
  | some v => simp [Instruction.execute, Instruction.new_ex, execMnemonic, hsrc,
      Operand.write, hw]

/-- C9, witness: the theorem applied at Location B, including the 0x06 instruction
Ld(B, Const8) failing on a concrete zeroed state. -/
theorem c9_location_write_witness :
    Location.write Location.B Registers.new Ram.new (Bytes.One 5) = none
    ∧ (Instruction.new_ex (.Ld (.Immediate .B) (.Immediate .Const8)) 2 [8]).execute
        Ram.new Registers.new = none :=
  ⟨(c9_location_write_only_a_and_bc Location.B (by decide) (by decide)).1
      Registers.new Ram.new (Bytes.One 5),
   (c9_location_write_only_a_and_bc Location.B (by decide) (by decide)).2
      (.Immediate .Const8) Ram.new Registers.new 2 [8]⟩

/-- The instruction `Ld(A.imm(), Const8.imm())` that the seven immediate-arithmetic
opcodes decode to. -/
def ldAConst8 : Instruction := Instruction.new (.Ld (.Immediate .A) (.Immediate .Const8)) 2 8

/-- C10: the opcodes 0xC6, 0xCE, 0xD6, 0xDE, 0xE6, 0xEE and 0xF6 all decode to
`Ld(A, Const8)`, and executing that instruction (for any PC below the top of memory)
copies the immediate byte at PC+1 into A, advances PC by 2, and changes nothing else —
in particular the flag register F is unchanged. -/
theorem c10_immediate_arith_opcodes_are_ld :
    (∀ b ∈ [0xC6, 0xCE, 0xD6, 0xDE, 0xE6, 0xEE, 0xF6], decode b = some ldAConst8)
    ∧ ∀ (m : Ram) (r : Registers), r.pc < 65535 →
        ldAConst8.execute m r
          = some (m, { r with a := m.get (r.pc + 1), pc := (r.pc + 2) % 65536 }) := by
  refine ⟨by decide, ?_⟩
  intro m r h
  simp [ldAConst8, Instruction.execute, Instruction.new, Instruction.new_ex,
    execMnemonic, Operand.read, Operand.write, Location.read, Location.write,
    Addr.next, h, Bytes.single, Ram.get]

/-- C10, witness: opcode 0xC6 decodes to Ld(A, Const8), and executing it on zeroed
memory and fresh registers loads the byte at 0x101 into A with F unchanged. -/
theorem c10_immediate_arith_witness :
    decode 0xC6 = some ldAConst8
    ∧ ldAConst8.execute Ram.new Registers.new
        = some (Ram.new, { Registers.new with a := Ram.new.get 0x101, pc := 0x102 }) :=
  ⟨c10_immediate_arith_opcodes_are_ld.1 0xC6 (by decide),
   c10_immediate_arith_opcodes_are_ld.2 Ram.new Registers.new (by decide)⟩

end GB

